import Mathlib

/-!
Verification of the joystick-driven 3D model controller (`src/index.py`).

The embedding below follows the Python source closely:

* floats are modelled as exact rationals (`ℚ`);
* `read_joystick_data` reads at most one buffered line from a serial
  channel, decodes it (Python `int` token parsing, comma split, range
  validation) and returns an optional sample;
* `ModelController.update_from_joystick` is the per-tick state transition
  on position / rotation / velocity.
-/

namespace Ctrl

/-! ### Configuration constants (from the CONFIGURATION CONSTANTS block) -/

def JOYSTICK_CENTER : ℚ := 512

def JOYSTICK_MAX : ℚ := 512

def MOVEMENT_SPEED : ℚ := 1 / 10

def ROTATION_SPEED : ℚ := 2

def JUMP_HEIGHT : ℚ := 1 / 5

/-- The fall rate `0.05` hard-coded at line 326 of the source. -/
def FALL_RATE : ℚ := 1 / 20

/-- The deadzone `0.1` hard-coded at line 305 of the source. -/
def DEADZONE : ℚ := 1 / 10

/-! ### Python string / int primitives used by `read_joystick_data` -/

/-- Characters stripped by Python `str.strip()` (ASCII whitespace). -/
def isPySpace (c : Char) : Bool :=
  c = ' ' || c = '\t' || c = '\n' || c = '\x0d' || c = '\x0b' || c = '\x0c'

/-- Python `str.strip()` on a character list. -/
def stripChars (cs : List Char) : List Char :=
  ((cs.dropWhile isPySpace).reverse.dropWhile isPySpace).reverse

/-- Python `str.split(',')`: split on every comma, keeping empty pieces. -/
def splitComma : List Char → List (List Char)
  | [] => [[]]
  | c :: rest =>
    if c = ',' then [] :: splitComma rest
    else
      match splitComma rest with
      | [] => [[c]]
      | t :: ts => (c :: t) :: ts

/-- Numeric value of a decimal digit character. -/
def charVal (c : Char) : Nat := c.toNat - 48

/-- Digit run of a Python integer literal after the optional sign:
digits with single underscores allowed between digits (CPython `int`). -/
def parseUDigitsAux (acc : Nat) : List Char → Option Nat
  | [] => some acc
  | c :: rest =>
    if c = '_' then
      match rest with
      | [] => none
      | c2 :: rest2 =>
        if c2.isDigit then parseUDigitsAux (acc * 10 + charVal c2) rest2 else none
    else if c.isDigit then parseUDigitsAux (acc * 10 + charVal c) rest
    else none

/-- Parse a nonempty digit run (first char must be a digit). -/
def parseUDigits : List Char → Option Nat
  | [] => none
  | c :: rest => if c.isDigit then parseUDigitsAux (charVal c) rest else none

/-- Sign handling of a Python integer literal: optional single `+`/`-`,
then a digit run. -/
def pyIntCore : List Char → Option Int
  | [] => none
  | c :: rest =>
    if c = '+' then (parseUDigits rest).map Int.ofNat
    else if c = '-' then (parseUDigits rest).map (fun n => -(n : Int))
    else (parseUDigits (c :: rest)).map Int.ofNat

/-- Python `int(token)` on text: strip whitespace, optional single sign,
then a digit run.  Returns `none` where CPython raises `ValueError`. -/
def pyInt (cs : List Char) : Option Int := pyIntCore (stripChars cs)

/-! ### The input decoder (`read_joystick_data`, lines 232-270) -/

/-- A validated joystick sample (`(x_axis, y_axis, button_pressed)`). -/
structure InputSample where
  x_axis : Int
  y_axis : Int
  button_pressed : Bool
deriving DecidableEq, Repr

/-- The unpack-and-validate step `x, y, button = map(int, line.split(','))`
followed by the range check: exactly three tokens, all parsed, `x`/`y`
in `[0, 1023]`, button active-low (`pressed = (button == 0)`). -/
def decodeTokens : List (Option Int) → Option InputSample
  | [some x, some y, some button] =>
    if 0 ≤ x ∧ x ≤ 1023 ∧ 0 ≤ y ∧ y ≤ 1023 then
      some ⟨x, y, button == 0⟩
    else none
  | _ => none

/-- Decode one raw text line exactly as lines 251-266 of the source do:
strip, reject the empty line, split on commas, `int` every token. -/
def read_joystick_line (raw : List Char) : Option InputSample :=
  let line := stripChars raw
  if line.isEmpty then none
  else decodeTokens ((splitComma line).map pyInt)

/-- The serial channel: the lines currently buffered.  A `none` entry is a
buffered line whose bytes fail UTF-8 decoding (`UnicodeDecodeError`). -/
structure SerialChannel where
  buffer : List (Option (List Char))
deriving DecidableEq

/-- `read_joystick_data(ser)` (lines 246-270): with no channel or nothing
buffered it returns no sample at once; otherwise it consumes exactly the
first buffered line and decodes it.  Returns the sample (if any) and the
channel afterwards. -/
def read_joystick_data :
    Option SerialChannel → Option InputSample × Option SerialChannel
  | none => (none, none)
  | some ser =>
    match ser.buffer with
    | [] => (none, some ser)
    | raw :: rest =>
      match raw with
      | none => (none, some ⟨rest⟩)
      | some line => (read_joystick_line line, some ⟨rest⟩)

/-! ### Actor state and transition (`ModelController`, lines 277-326) -/

/-- A triple of rational coordinates. -/
structure Vec3 where
  x : ℚ
  y : ℚ
  z : ℚ
deriving DecidableEq, Repr

/-- The controller state: `position`, `rotation` (degrees: pitch about X
in `.x`, yaw about Y in `.y`, roll about Z in `.z`) and `velocity`. -/
structure ModelController where
  position : Vec3
  rotation : Vec3
  velocity : Vec3
deriving DecidableEq, Repr

/-- `ModelController.__init__`: everything zero. -/
def ModelController.init : ModelController :=
  ⟨⟨0, 0, 0⟩, ⟨0, 0, 0⟩, ⟨0, 0, 0⟩⟩

/-- Python `a % b` on floats, exact: `a - b * floor (a / b)`. -/
def pyMod (a b : ℚ) : ℚ := a - b * ⌊a / b⌋

/-- `ModelController.update_from_joystick` (lines 288-326), verbatim:
early return on `None`; normalize both axes; deadzone; strafe on x;
yaw plus wrap `%= 360`; jump on press, else gravity clamped at 0. -/
def ModelController.update_from_joystick (self : ModelController)
    (joystick_data : Option InputSample) : ModelController :=
  match joystick_data with
  | none => self
  | some data =>
    let x_normalized := ((data.x_axis : ℚ) - JOYSTICK_CENTER) / JOYSTICK_MAX
    let y_normalized := ((data.y_axis : ℚ) - JOYSTICK_CENTER) / JOYSTICK_MAX
    let x_normalized := if |x_normalized| < DEADZONE then 0 else x_normalized
    let y_normalized := if |y_normalized| < DEADZONE then 0 else y_normalized
    let posX := self.position.x + x_normalized * MOVEMENT_SPEED
    let yaw := pyMod (self.rotation.y + y_normalized * ROTATION_SPEED) 360
    let posY :=
      if data.button_pressed then self.position.y + JUMP_HEIGHT
      else if self.position.y > 0 then max 0 (self.position.y - FALL_RATE)
      else self.position.y
    { self with
      position := { self.position with x := posX, y := posY }
      rotation := { self.rotation with y := yaw } }

/-- One tick of the input half of the main loop (lines 390-391): poll the
channel once, then advance the controller with the optional sample. -/
def tick (s : ModelController × Option SerialChannel) :
    ModelController × Option SerialChannel :=
  let r := read_joystick_data s.2
  (s.1.update_from_joystick r.1, r.2)

/-! ### Canonical decimal rendering, used to state wire-format claims -/

/-- Decimal digits of `n`, most significant first, fuelled recursion. -/
def toDecAux : Nat → Nat → List Char → List Char
  | 0, _, acc => acc
  | fuel + 1, n, acc =>
    if n < 10 then Nat.digitChar n :: acc
    else toDecAux fuel (n / 10) (Nat.digitChar (n % 10) :: acc)

/-- Decimal rendering of a natural number, e.g. `natDec 612 = "612"`. -/
def natDec (n : Nat) : List Char := toDecAux (n + 1) n []

/-- Decimal rendering of an integer (canonical sign: `-` iff negative). -/
def intDec (i : Int) : List Char :=
  if i < 0 then '-' :: natDec i.natAbs else natDec i.toNat

/-- The wire line `"<x>,<y>,<b>"` for integer field values. -/
def intLine (x y b : Int) : List Char :=
  intDec x ++ ',' :: (intDec y ++ ',' :: intDec b)

/-- Accumulated digit value, the loop invariant of `parseUDigitsAux`. -/
def stepD (a : Nat) (c : Char) : Nat := a * 10 + charVal c

/-! ### Helper lemmas: decimal rendering round-trips through `pyInt` -/

theorem digitChar_isDigit {d : Nat} (h : d < 10) :
    (Nat.digitChar d).isDigit = true := by
  interval_cases d <;> decide

theorem charVal_digitChar {d : Nat} (h : d < 10) :
    charVal (Nat.digitChar d) = d := by
  interval_cases d <;> decide

theorem isDigit_props {c : Char} (h : c.isDigit = true) :
    isPySpace c = false ∧ ¬c = ',' ∧ ¬c = '+' ∧ ¬c = '-' ∧ ¬c = '_' := by
  refine ⟨?_, ?_, ?_, ?_, ?_⟩
  · by_contra hs
    rw [Bool.not_eq_false] at hs
    simp only [isPySpace, Bool.or_eq_true, decide_eq_true_eq] at hs
    rcases hs with ((((h1 | h1) | h1) | h1) | h1) | h1 <;> subst h1 <;>
      exact absurd h (by decide)
  all_goals rintro rfl; exact absurd h (by decide)

theorem toDecAux_succ (fuel n : Nat) (acc : List Char) :
    toDecAux (fuel + 1) n acc =
      if n < 10 then Nat.digitChar n :: acc
      else toDecAux fuel (n / 10) (Nat.digitChar (n % 10) :: acc) := rfl

theorem toDecAux_append (fuel : Nat) : ∀ (n : Nat) (acc : List Char),
    toDecAux fuel n acc = toDecAux fuel n [] ++ acc := by
  induction fuel with
  | zero => intro n acc; rfl
  | succ f ih =>
    intro n acc
    by_cases h : n < 10
    · simp [toDecAux, h]
    · simp only [toDecAux, if_neg h]
      rw [ih (n / 10) (Nat.digitChar (n % 10) :: acc),
        ih (n / 10) [Nat.digitChar (n % 10)]]
      simp

theorem toDecAux_fuel : ∀ (f₁ f₂ n : Nat) (acc : List Char), n < f₁ → n < f₂ →
    toDecAux f₁ n acc = toDecAux f₂ n acc := by
  intro f₁
  induction f₁ with
  | zero => intro f₂ n acc h1 _; omega
  | succ g ih =>
    intro f₂ n acc h1 h2
    cases f₂ with
    | zero => omega
    | succ g2 =>
      by_cases hn : n < 10
      · rw [toDecAux_succ, toDecAux_succ, if_pos hn, if_pos hn]
      · rw [toDecAux_succ, toDecAux_succ, if_neg hn, if_neg hn]
        have hdiv : n / 10 < n := Nat.div_lt_self (by omega) (by omega)
        exact ih g2 (n / 10) _ (by omega) (by omega)

theorem natDec_small {n : Nat} (h : n < 10) : natDec n = [Nat.digitChar n] := by
  unfold natDec
  simp [toDecAux, h]

theorem natDec_step {n : Nat} (h : ¬n < 10) :
    natDec n = natDec (n / 10) ++ [Nat.digitChar (n % 10)] := by
  have hdiv : n / 10 < n := Nat.div_lt_self (by omega) (by omega)
  show toDecAux (n + 1) n [] = _
  rw [toDecAux_succ, if_neg h]
  rw [toDecAux_fuel n (n / 10 + 1) (n / 10) _ (by omega) (by omega)]
  rw [toDecAux_append]
  rfl

theorem natDec_digits (n : Nat) : ∀ c ∈ natDec n, c.isDigit = true := by
  induction n using Nat.strong_induction_on with
  | _ n ih =>
    by_cases h : n < 10
    · rw [natDec_small h]
      intro c hc
      rw [List.mem_singleton] at hc
      subst hc
      exact digitChar_isDigit h
    · rw [natDec_step h]
      intro c hc
      rcases List.mem_append.mp hc with hm | hm
      · exact ih (n / 10) (Nat.div_lt_self (by omega) (by omega)) c hm
      · rw [List.mem_singleton] at hm
        subst hm
        exact digitChar_isDigit (Nat.mod_lt n (by omega))

theorem natDec_ne_nil (n : Nat) : natDec n ≠ [] := by
  by_cases h : n < 10
  · rw [natDec_small h]; simp
  · rw [natDec_step h]; simp

theorem natDec_foldl (n : Nat) : ∀ a : Nat,
    (natDec n).foldl stepD a = a * 10 ^ (natDec n).length + n := by
  induction n using Nat.strong_induction_on with
  | _ n ih =>
    intro a
    by_cases h : n < 10
    · rw [natDec_small h]
      simp [stepD, charVal_digitChar h]
    · rw [natDec_step h]
      rw [List.foldl_append, List.length_append]
      have hdiv : n / 10 < n := Nat.div_lt_self (by omega) (by omega)
      rw [ih (n / 10) hdiv a]
      simp only [List.foldl_cons, List.foldl_nil, List.length_singleton]
      rw [pow_succ, stepD, charVal_digitChar (Nat.mod_lt n (by omega))]
      rw [Nat.add_mul, Nat.mul_assoc]
      rw [Nat.add_assoc]
      congr 1
      omega

theorem parseUDigitsAux_cons (a : Nat) (c : Char) (rest : List Char) :
    parseUDigitsAux a (c :: rest) =
      if c = '_' then
        (match rest with
          | [] => none
          | c2 :: rest2 =>
            if c2.isDigit then parseUDigitsAux (a * 10 + charVal c2) rest2
            else none)
      else if c.isDigit then parseUDigitsAux (a * 10 + charVal c) rest
      else none := by
  rw [parseUDigitsAux.eq_def]

theorem parseUDigitsAux_all_digits :
    ∀ (ds : List Char) (a : Nat), (∀ c ∈ ds, c.isDigit = true) →
      parseUDigitsAux a ds = some (ds.foldl stepD a) := by
  intro ds
  induction ds with
  | nil => intro a _; rfl
  | cons c rest ih =>
    intro a h
    have hc : c.isDigit = true := h c (List.mem_cons_self _ _)
    have hu : ¬c = '_' := (isDigit_props hc).2.2.2.2
    rw [parseUDigitsAux_cons, if_neg hu, if_pos hc, List.foldl_cons]
    exact ih (stepD a c) fun d hd => h d (List.mem_cons_of_mem c hd)

theorem parseUDigits_natDec (n : Nat) : parseUDigits (natDec n) = some n := by
  have hd := natDec_digits n
  have hval := natDec_foldl n 0
  rcases he : natDec n with _ | ⟨c, rest⟩
  · exact absurd he (natDec_ne_nil n)
  · rw [he] at hd hval
    have hc : c.isDigit = true := hd c (List.mem_cons_self _ _)
    simp only [parseUDigits, if_pos hc]
    rw [parseUDigitsAux_all_digits rest (charVal c)
      fun d hdm => hd d (List.mem_cons_of_mem c hdm)]
    simp only [List.foldl_cons, stepD, Nat.zero_mul, Nat.zero_add] at hval
    rw [hval]

theorem dropWhile_eq_self {p : Char → Bool} {cs : List Char}
    (h : ∀ c ∈ cs, p c = false) : cs.dropWhile p = cs := by
  cases cs with
  | nil => rfl
  | cons c rest =>
    have hc : p c = false := h c (List.mem_cons_self _ _)
    simp [List.dropWhile_cons, hc]

theorem stripChars_eq_self {cs : List Char}
    (h : ∀ c ∈ cs, isPySpace c = false) : stripChars cs = cs := by
  unfold stripChars
  rw [dropWhile_eq_self h]
  rw [dropWhile_eq_self fun c hc => h c (List.mem_reverse.mp hc)]
  exact List.reverse_reverse cs

theorem splitComma_cons (c : Char) (rest : List Char) :
    splitComma (c :: rest) =
      if c = ',' then [] :: splitComma rest
      else
        match splitComma rest with
        | [] => [[c]]
        | t :: ts => (c :: t) :: ts := by
  rw [splitComma.eq_def]

theorem splitComma_no_comma :
    ∀ (cs : List Char), (∀ c ∈ cs, ¬c = ',') → splitComma cs = [cs] := by
  intro cs
  induction cs with
  | nil => intro _; rfl
  | cons c rest ih =>
    intro h
    have hc : ¬c = ',' := h c (List.mem_cons_self _ _)
    rw [splitComma_cons, if_neg hc, ih fun d hd => h d (List.mem_cons_of_mem c hd)]

theorem splitComma_append :
    ∀ (a rest : List Char), (∀ c ∈ a, ¬c = ',') →
      splitComma (a ++ ',' :: rest) = a :: splitComma rest := by
  intro a
  induction a with
  | nil => intro rest _; simp [splitComma]
  | cons c a2 ih =>
    intro rest h
    have hc : ¬c = ',' := h c (List.mem_cons_self _ _)
    rw [List.cons_append, splitComma_cons, if_neg hc,
      ih rest fun d hd => h d (List.mem_cons_of_mem c hd)]

theorem natDec_not_space (n : Nat) : ∀ c ∈ natDec n, isPySpace c = false :=
  fun c hc => (isDigit_props (natDec_digits n c hc)).1

theorem pyIntCore_cons (c : Char) (rest : List Char) :
    pyIntCore (c :: rest) =
      if c = '+' then (parseUDigits rest).map Int.ofNat
      else if c = '-' then (parseUDigits rest).map (fun n => -(n : Int))
      else (parseUDigits (c :: rest)).map Int.ofNat := rfl

theorem pyInt_natDec (n : Nat) : pyInt (natDec n) = some (n : Int) := by
  unfold pyInt
  rw [stripChars_eq_self (natDec_not_space n)]
  have hd := natDec_digits n
  rcases he : natDec n with _ | ⟨c, rest⟩
  · exact absurd he (natDec_ne_nil n)
  · rw [he] at hd
    have hc : c.isDigit = true := hd c (List.mem_cons_self _ _)
    simp only [pyIntCore, if_neg (isDigit_props hc).2.2.1,
      if_neg (isDigit_props hc).2.2.2.1]
    rw [← he, parseUDigits_natDec n]
    rfl

theorem intDec_props (i : Int) :
    intDec i ≠ [] ∧ (∀ c ∈ intDec i, isPySpace c = false) ∧
      (∀ c ∈ intDec i, ¬c = ',') := by
  unfold intDec
  split_ifs with h
  · refine ⟨by simp, ?_, ?_⟩ <;> intro c hc
    · rcases List.mem_cons.mp hc with rfl | hm
      · decide
      · exact (isDigit_props (natDec_digits _ c hm)).1
    · rcases List.mem_cons.mp hc with rfl | hm
      · decide
      · exact (isDigit_props (natDec_digits _ c hm)).2.1
  · exact ⟨natDec_ne_nil _, natDec_not_space _,
      fun c hc => (isDigit_props (natDec_digits _ c hc)).2.1⟩

theorem pyInt_intDec (i : Int) : pyInt (intDec i) = some i := by
  by_cases h : i < 0
  · unfold pyInt
    rw [stripChars_eq_self (intDec_props i).2.1]
    unfold intDec
    rw [if_pos h]
    rw [pyIntCore_cons, if_neg (by decide : ¬('-' = '+')),
      if_pos (rfl : '-' = '-')]
    rw [parseUDigits_natDec]
    rw [show (some i.natAbs).map (fun n => -(n : Int)) =
      some (-(i.natAbs : Int)) from rfl]
    congr 1
    omega
  · unfold pyInt
    rw [stripChars_eq_self (intDec_props i).2.1]
    unfold intDec
    rw [if_neg h]
    have h2 := pyInt_natDec i.toNat
    unfold pyInt at h2
    rw [stripChars_eq_self (natDec_not_space i.toNat)] at h2
    rw [h2]
    congr 1
    omega

/-! ### Helper lemmas: the decoder on whole lines -/

theorem read_joystick_line_eq (raw : List Char) :
    read_joystick_line raw =
      if (stripChars raw).isEmpty then none
      else decodeTokens ((splitComma (stripChars raw)).map pyInt) := rfl

theorem intLine_not_space (x y b : Int) :
    ∀ c ∈ intLine x y b, isPySpace c = false := by
  intro c hc
  unfold intLine at hc
  rcases List.mem_append.mp hc with hm | hm
  · exact (intDec_props x).2.1 c hm
  · rcases List.mem_cons.mp hm with rfl | hm2
    · decide
    · rcases List.mem_append.mp hm2 with hm3 | hm3
      · exact (intDec_props y).2.1 c hm3
      · rcases List.mem_cons.mp hm3 with rfl | hm4
        · decide
        · exact (intDec_props b).2.1 c hm4

theorem intLine_ne_nil (x y b : Int) : intLine x y b ≠ [] := by
  unfold intLine
  intro h
  rcases hn : intDec x with _ | ⟨c, cs⟩
  · exact absurd hn (intDec_props x).1
  · rw [hn] at h
    simp at h

theorem splitComma_intLine (x y b : Int) :
    splitComma (intLine x y b) = [intDec x, intDec y, intDec b] := by
  unfold intLine
  rw [splitComma_append _ _ (intDec_props x).2.2]
  rw [splitComma_append _ _ (intDec_props y).2.2]
  rw [splitComma_no_comma _ (intDec_props b).2.2]

theorem read_joystick_line_intLine (x y b : Int) :
    read_joystick_line (intLine x y b) =
      if 0 ≤ x ∧ x ≤ 1023 ∧ 0 ≤ y ∧ y ≤ 1023 then
        some ⟨x, y, b == 0⟩
      else none := by
  rw [read_joystick_line_eq]
  rw [stripChars_eq_self (intLine_not_space x y b)]
  have hE : (intLine x y b).isEmpty = false := by
    rcases hn : intLine x y b with _ | ⟨hd, tl⟩
    · exact absurd hn (intLine_ne_nil x y b)
    · rfl
  have hcond : ¬((intLine x y b).isEmpty = true) := by
    rw [hE]
    exact Bool.false_ne_true
  rw [if_neg hcond]
  rw [splitComma_intLine, List.map_cons, List.map_cons, List.map_cons,
    List.map_nil]
  rw [pyInt_intDec, pyInt_intDec, pyInt_intDec]
  rfl

theorem decodeTokens_length {l : List (Option Int)} (h : ¬l.length = 3) :
    decodeTokens l = none := by
  rcases l with _ | ⟨a, _ | ⟨b, _ | ⟨c, _ | ⟨d, tl⟩⟩⟩⟩
  · rfl
  · cases a <;> rfl
  · cases a <;> cases b <;> rfl
  · simp at h
  · cases a <;> cases b <;> cases c <;> rfl

theorem decodeTokens_mem_none {l : List (Option Int)} (h : none ∈ l) :
    decodeTokens l = none := by
  rcases l with _ | ⟨a, _ | ⟨b, _ | ⟨c, _ | ⟨d, tl⟩⟩⟩⟩
  · simp at h
  · cases a
    · rfl
    · simp at h
  · cases a <;> cases b <;> rfl
  · cases a <;> cases b <;> cases c <;> first | rfl | simp at h
  · cases a <;> cases b <;> cases c <;> rfl

theorem read_joystick_line_wrong_arity {raw : List Char}
    (h : ¬(splitComma (stripChars raw)).length = 3) :
    read_joystick_line raw = none := by
  rw [read_joystick_line_eq]
  split_ifs with hE
  · rfl
  · exact decodeTokens_length (by rw [List.length_map]; exact h)

theorem read_joystick_line_bad_token {raw t : List Char}
    (ht : t ∈ splitComma (stripChars raw)) (hp : pyInt t = none) :
    read_joystick_line raw = none := by
  rw [read_joystick_line_eq]
  split_ifs with hE
  · rfl
  · refine decodeTokens_mem_none ?_
    rw [← hp]
    exact List.mem_map_of_mem pyInt ht

/-! ### Helper lemmas: the state transition -/

theorem pyMod_bounds (a : ℚ) : 0 ≤ pyMod a 360 ∧ pyMod a 360 < 360 := by
  unfold pyMod
  have h1 : (⌊a / 360⌋ : ℚ) ≤ a / 360 := Int.floor_le _
  have h2 : a / 360 < ⌊a / 360⌋ + 1 := Int.lt_floor_add_one _
  constructor <;> linarith

theorem update_none (s : ModelController) :
    s.update_from_joystick none = s := rfl

theorem update_some (s : ModelController) (d : InputSample) :
    s.update_from_joystick (some d) =
      { s with
        position :=
          { s.position with
            x := s.position.x +
              (if |((d.x_axis : ℚ) - JOYSTICK_CENTER) / JOYSTICK_MAX| < DEADZONE
                then 0
                else ((d.x_axis : ℚ) - JOYSTICK_CENTER) / JOYSTICK_MAX) *
                MOVEMENT_SPEED
            y :=
              if d.button_pressed then s.position.y + JUMP_HEIGHT
              else if s.position.y > 0 then max 0 (s.position.y - FALL_RATE)
              else s.position.y }
        rotation :=
          { s.rotation with
            y := pyMod (s.rotation.y +
              (if |((d.y_axis : ℚ) - JOYSTICK_CENTER) / JOYSTICK_MAX| < DEADZONE
                then 0
                else ((d.y_axis : ℚ) - JOYSTICK_CENTER) / JOYSTICK_MAX) *
                ROTATION_SPEED) 360 } } := rfl

/-! ### The end-to-end sample stream of the spec scenario -/

/-- The raw frame stream `"612,512,1"`, `"612,512,1"`, `"412,400,0"`
buffered on the channel. -/
def sampleStream : Option SerialChannel :=
  some ⟨[some ("612,512,1".data), some ("612,512,1".data),
    some ("412,400,0".data)]⟩

theorem stream_upd1 :
    ModelController.init.update_from_joystick (some ⟨612, 512, false⟩) =
      ⟨⟨5 / 256, 0, 0⟩, ⟨0, 0, 0⟩, ⟨0, 0, 0⟩⟩ := by
  norm_num [ModelController.update_from_joystick, pyMod, JOYSTICK_CENTER,
    JOYSTICK_MAX, MOVEMENT_SPEED, ROTATION_SPEED, JUMP_HEIGHT, FALL_RATE,
    DEADZONE, ModelController.init, abs_of_nonneg, abs_of_nonpos]

theorem stream_upd2 :
    (⟨⟨5 / 256, 0, 0⟩, ⟨0, 0, 0⟩, ⟨0, 0, 0⟩⟩ :
        ModelController).update_from_joystick (some ⟨612, 512, false⟩) =
      ⟨⟨5 / 128, 0, 0⟩, ⟨0, 0, 0⟩, ⟨0, 0, 0⟩⟩ := by
  norm_num [ModelController.update_from_joystick, pyMod, JOYSTICK_CENTER,
    JOYSTICK_MAX, MOVEMENT_SPEED, ROTATION_SPEED, JUMP_HEIGHT, FALL_RATE,
    DEADZONE, abs_of_nonneg, abs_of_nonpos]

theorem stream_upd3 :
    (⟨⟨5 / 128, 0, 0⟩, ⟨0, 0, 0⟩, ⟨0, 0, 0⟩⟩ :
        ModelController).update_from_joystick (some ⟨412, 400, true⟩) =
      ⟨⟨5 / 256, 1 / 5, 0⟩, ⟨0, 5753 / 16, 0⟩, ⟨0, 0, 0⟩⟩ := by
  norm_num [ModelController.update_from_joystick, pyMod, JOYSTICK_CENTER,
    JOYSTICK_MAX, MOVEMENT_SPEED, ROTATION_SPEED, JUMP_HEIGHT, FALL_RATE,
    DEADZONE, abs_of_nonneg, abs_of_nonpos]

theorem stream_tick1 :
    tick (ModelController.init, sampleStream) =
      (⟨⟨5 / 256, 0, 0⟩, ⟨0, 0, 0⟩, ⟨0, 0, 0⟩⟩,
        some ⟨[some ("612,512,1".data), some ("412,400,0".data)]⟩) := by
  rw [show tick (ModelController.init, sampleStream) =
    (ModelController.init.update_from_joystick (some ⟨612, 512, false⟩),
      some ⟨[some ("612,512,1".data), some ("412,400,0".data)]⟩) from rfl]
  rw [stream_upd1]

theorem stream_tick2 :
    tick (⟨⟨5 / 256, 0, 0⟩, ⟨0, 0, 0⟩, ⟨0, 0, 0⟩⟩,
        some ⟨[some ("612,512,1".data), some ("412,400,0".data)]⟩) =
      (⟨⟨5 / 128, 0, 0⟩, ⟨0, 0, 0⟩, ⟨0, 0, 0⟩⟩,
        some ⟨[some ("412,400,0".data)]⟩) := by
  rw [show tick (⟨⟨5 / 256, 0, 0⟩, ⟨0, 0, 0⟩, ⟨0, 0, 0⟩⟩,
      some ⟨[some ("612,512,1".data), some ("412,400,0".data)]⟩) =
    ((⟨⟨5 / 256, 0, 0⟩, ⟨0, 0, 0⟩, ⟨0, 0, 0⟩⟩ :
        ModelController).update_from_joystick (some ⟨612, 512, false⟩),
      some ⟨[some ("412,400,0".data)]⟩) from rfl]
  rw [stream_upd2]

theorem stream_tick3 :
    tick (⟨⟨5 / 128, 0, 0⟩, ⟨0, 0, 0⟩, ⟨0, 0, 0⟩⟩,
        some ⟨[some ("412,400,0".data)]⟩) =
      (⟨⟨5 / 256, 1 / 5, 0⟩, ⟨0, 5753 / 16, 0⟩, ⟨0, 0, 0⟩⟩,
        some ⟨([] : List (Option (List Char)))⟩) := by
  rw [show tick (⟨⟨5 / 128, 0, 0⟩, ⟨0, 0, 0⟩, ⟨0, 0, 0⟩⟩,
      some ⟨[some ("412,400,0".data)]⟩) =
    ((⟨⟨5 / 128, 0, 0⟩, ⟨0, 0, 0⟩, ⟨0, 0, 0⟩⟩ :
        ModelController).update_from_joystick (some ⟨412, 400, true⟩),
      some ⟨([] : List (Option (List Char)))⟩) from rfl]
  rw [stream_upd3]

/-! ### The claims -/

/-- Claim C1, counterexample: at a state with `position.y = 1 > 0`, the
transition applied with no sample leaves `position.y = 1`; it does not
decrease it by the fall rate to `max 0 (1 - 0.05) = 0.95` as claimed,
because `update_from_joystick` returns early on `None` (line 295). -/
theorem C1_counterexample :
    ((ModelController.mk ⟨0, 1, 0⟩ ⟨0, 0, 0⟩ ⟨0, 0, 0⟩).update_from_joystick
        none).position.y = 1 ∧
      max 0 (1 - FALL_RATE) = 19 / 20 ∧ (1 : ℚ) ≠ 19 / 20 := by
  refine ⟨rfl, ?_, by norm_num⟩
  rw [max_eq_right (by norm_num [FALL_RATE] : (0 : ℚ) ≤ 1 - FALL_RATE)]
  norm_num [FALL_RATE]

/-- Claim C1, amended: with no sample the transition is the identity — it
changes nothing at all.  `position.x` and `rotation.yaw` are unchanged as
claimed, but so is `position.y`: gravity does not run without a sample. -/
theorem C1_thm (s : ModelController) : s.update_from_joystick none = s := rfl

/-- Claim C3, counterexample: a line whose button token is `2` (outside
`{0,1}`) is not dropped — it decodes to a sample with the button read as
not pressed — and a leading-sign token `+612` is accepted as well. -/
theorem C3_counterexample :
    read_joystick_line ("612,512,2".data) = some ⟨612, 512, false⟩ ∧
      read_joystick_line ("+612,512,1".data) = some ⟨612, 512, false⟩ :=
  ⟨rfl, rfl⟩

/-- Claim C3, amended: the decoder yields a sample exactly when the
stripped line splits on commas into three tokens parseable as Python
integers with `x, y ∈ [0, 1023]`; the button token may be any integer
(pressed iff it equals 0) and tokens may carry a leading sign.  Lines
with a wrong token count or an unparseable token are dropped. -/
theorem C3_thm :
    (∀ x y b : Int,
      read_joystick_line (intLine x y b) =
        if 0 ≤ x ∧ x ≤ 1023 ∧ 0 ≤ y ∧ y ≤ 1023 then
          some ⟨x, y, b == 0⟩
        else none) ∧
    (∀ raw : List Char, ¬(splitComma (stripChars raw)).length = 3 →
      read_joystick_line raw = none) ∧
    (∀ (raw t : List Char), t ∈ splitComma (stripChars raw) →
      pyInt t = none → read_joystick_line raw = none) :=
  ⟨read_joystick_line_intLine,
   fun _ h => read_joystick_line_wrong_arity h,
   fun _ _ ht hp => read_joystick_line_bad_token ht hp⟩

/-- Claim C3, witness: the amended characterization evaluated at
`"612,512,2"` (button outside `{0,1}`, accepted), at a two-token line
(dropped) and at a line with a non-integer token (dropped). -/
theorem C3_witness :
    read_joystick_line (intLine 612 512 2) = some ⟨612, 512, false⟩ ∧
      read_joystick_line ("612,512".data) = none ∧
      read_joystick_line ("a,b,c".data) = none := by
  refine ⟨?_, ?_, ?_⟩
  · have h := C3_thm.1 612 512 2
    rwa [if_pos (by norm_num)] at h
  · exact C3_thm.2.1 _ (by decide)
  · exact C3_thm.2.2 _ ("a".data) (by decide) (by decide)

/-- Claim C4, confirmed: decoding `"<x>,<y>,<b>"` with `x, y ∈ [0, 1023]`
and `b ∈ {0, 1}` yields the sample `(x, y, b == 0)`; and a line with a
token count other than three, with a non-integer token, or with `x` or
`y` out of range decodes to `none` (the function is total — Python
exceptions are caught and mapped to `None`). -/
theorem C4_thm :
    (∀ x y b : Int, 0 ≤ x → x ≤ 1023 → 0 ≤ y → y ≤ 1023 → b = 0 ∨ b = 1 →
      read_joystick_line (intLine x y b) = some ⟨x, y, b == 0⟩) ∧
    (∀ raw : List Char, ¬(splitComma (stripChars raw)).length = 3 →
      read_joystick_line raw = none) ∧
    (∀ (raw t : List Char), t ∈ splitComma (stripChars raw) →
      pyInt t = none → read_joystick_line raw = none) ∧
    (∀ x y b : Int, x < 0 ∨ 1023 < x ∨ y < 0 ∨ 1023 < y →
      read_joystick_line (intLine x y b) = none) := by
  refine ⟨?_, fun _ h => read_joystick_line_wrong_arity h,
    fun _ _ ht hp => read_joystick_line_bad_token ht hp, ?_⟩
  · intro x y b hx0 hx1 hy0 hy1 _
    rw [read_joystick_line_intLine, if_pos ⟨hx0, hx1, hy0, hy1⟩]
  · intro x y b h
    rw [read_joystick_line_intLine, if_neg (by omega)]

/-- Claim C4, witness: the well-formed frame `"612,512,1"` decodes to
`(612, 512, released)`; a two-token line, a line with a non-integer
token, and an out-of-range `x = 9999` all decode to `none`. -/
theorem C4_witness :
    read_joystick_line ("612,512,1".data) = some ⟨612, 512, false⟩ ∧
      read_joystick_line ("612,512".data) = none ∧
      read_joystick_line ("61a,512,1".data) = none ∧
      read_joystick_line ("9999,512,1".data) = none :=
  ⟨C4_thm.1 612 512 1 (by norm_num) (by norm_num) (by norm_num) (by norm_num)
      (Or.inr rfl),
   C4_thm.2.1 _ (by decide),
   C4_thm.2.2.1 _ ("61a".data) (by decide) (by decide),
   C4_thm.2.2.2 9999 512 1 (by norm_num)⟩

/-- Claim C2, counterexample: in the spec scenario the first frame is
`"612,512,1"`, whose button field `1` means released (active-low), so
after tick 1 `position.y` is `0`, not the claimed `0 + 0.2`. -/
theorem C2_counterexample :
    (tick (ModelController.init, sampleStream)).1.position.y = 0 ∧
      (0 : ℚ) ≠ 1 / 5 := by
  refine ⟨?_, by norm_num⟩
  rw [stream_tick1]

/-- Claim C2, amended: over the stream `"612,512,1"`, `"612,512,1"`,
`"412,400,0"` the button is released on ticks 1-2 and pressed on tick 3
(active-low `0` = pressed), and the exact positions are: tick 1
`x = 5/256 = 0.01953125`, `y = 0`; tick 2 `x = 5/128`, `y = 0`; tick 3
`x = 5/256` and, the button now pressed, `y = 0.2` (no gravity). -/
theorem C2_thm :
    read_joystick_line ("612,512,1".data) = some ⟨612, 512, false⟩ ∧
      read_joystick_line ("412,400,0".data) = some ⟨412, 400, true⟩ ∧
      (tick (ModelController.init, sampleStream)).1.position.x = 5 / 256 ∧
      (tick (ModelController.init, sampleStream)).1.position.y = 0 ∧
      (tick (tick (ModelController.init,
        sampleStream))).1.position.x = 5 / 128 ∧
      (tick (tick (ModelController.init, sampleStream))).1.position.y = 0 ∧
      (tick (tick (tick (ModelController.init,
        sampleStream)))).1.position.x = 5 / 256 ∧
      (tick (tick (tick (ModelController.init,
        sampleStream)))).1.position.y = 1 / 5 := by
  refine ⟨rfl, rfl, ?_, ?_, ?_, ?_, ?_, ?_⟩
  · rw [stream_tick1]
  · rw [stream_tick1]
  · rw [stream_tick1, stream_tick2]
  · rw [stream_tick1, stream_tick2]
  · rw [stream_tick1, stream_tick2, stream_tick3]
  · rw [stream_tick1, stream_tick2, stream_tick3]

/-- Claim C5, confirmed: yaw stays in `[0, 360)` — the invariant is
preserved by every transition (with or without a sample), since the
sample branch ends with `%= 360` (a wrap, never negative) and the
no-sample branch leaves yaw unchanged; and from yaw `359` a `+2` degree
step wraps to `1`. -/
theorem C5_thm :
    (∀ (s : ModelController) (d : Option InputSample),
      0 ≤ s.rotation.y → s.rotation.y < 360 →
      0 ≤ (s.update_from_joystick d).rotation.y ∧
        (s.update_from_joystick d).rotation.y < 360) ∧
    ((ModelController.mk ⟨0, 0, 0⟩ ⟨0, 359, 0⟩ ⟨0, 0, 0⟩).update_from_joystick
      (some ⟨512, 1024, false⟩)).rotation.y = 1 := by
  constructor
  · intro s d h0 h1
    cases d with
    | none => exact ⟨h0, h1⟩
    | some d =>
      rw [update_some]
      exact pyMod_bounds _
  · norm_num [ModelController.update_from_joystick, pyMod, JOYSTICK_CENTER,
      JOYSTICK_MAX, MOVEMENT_SPEED, ROTATION_SPEED, JUMP_HEIGHT, FALL_RATE,
      DEADZONE, abs_of_nonneg, abs_of_nonpos]

/-- Claim C5, witness: the invariant instantiated at the concrete state
with yaw `359` and the sample stepping yaw by `+2`. -/
theorem C5_witness :
    0 ≤ ((ModelController.mk ⟨0, 0, 0⟩ ⟨0, 359, 0⟩
        ⟨0, 0, 0⟩).update_from_joystick
        (some ⟨512, 1024, false⟩)).rotation.y ∧
      ((ModelController.mk ⟨0, 0, 0⟩ ⟨0, 359, 0⟩
        ⟨0, 0, 0⟩).update_from_joystick
        (some ⟨512, 1024, false⟩)).rotation.y < 360 :=
  C5_thm.1 _ _ (by norm_num) (by norm_num)

/-- Claim C6, confirmed: `position.y ≥ 0` is preserved by every
transition — the jump branch adds a positive constant, the gravity
branch is clamped by `max 0 _`, and the remaining branches leave `y`
unchanged; and from `y = 0.03` with the button released the next tick
yields exactly `0`, not `-0.02`. -/
theorem C6_thm :
    (∀ (s : ModelController) (d : Option InputSample), 0 ≤ s.position.y →
      0 ≤ (s.update_from_joystick d).position.y) ∧
    ((ModelController.mk ⟨0, 3 / 100, 0⟩ ⟨0, 0, 0⟩
      ⟨0, 0, 0⟩).update_from_joystick
      (some ⟨512, 512, false⟩)).position.y = 0 := by
  constructor
  · intro s d h0
    cases d with
    | none => exact h0
    | some d =>
      rw [update_some]
      show 0 ≤ if d.button_pressed then s.position.y + JUMP_HEIGHT
        else if s.position.y > 0 then max 0 (s.position.y - FALL_RATE)
        else s.position.y
      split_ifs with hb hy
      · have hj : (0 : ℚ) < JUMP_HEIGHT := by norm_num [JUMP_HEIGHT]
        linarith
      · exact le_max_left 0 _
      · exact h0
  · norm_num [ModelController.update_from_joystick, pyMod, JOYSTICK_CENTER,
      JOYSTICK_MAX, MOVEMENT_SPEED, ROTATION_SPEED, JUMP_HEIGHT, FALL_RATE,
      DEADZONE, abs_of_nonneg, abs_of_nonpos, max_eq_left]

/-- Claim C6, witness: the invariant instantiated at the concrete state
with `y = 0.03` and a released-button sample. -/
theorem C6_witness :
    0 ≤ ((ModelController.mk ⟨0, 3 / 100, 0⟩ ⟨0, 0, 0⟩
      ⟨0, 0, 0⟩).update_from_joystick
      (some ⟨512, 512, false⟩)).position.y :=
  C6_thm.1 _ _ (by norm_num)

/-- Claim C7, confirmed: when the x axis is inside the deadzone
(`|x - 512| / 512 < 0.1`), the transition leaves `position.x` unchanged,
whatever the button state: the normalized value is zeroed before the
strafe step. -/
theorem C7_thm (s : ModelController) (x y : Int) (b : Bool)
    (h : |(x : ℚ) - 512| / 512 < 1 / 10) :
    (s.update_from_joystick (some ⟨x, y, b⟩)).position.x = s.position.x := by
  have hd : |(((⟨x, y, b⟩ : InputSample).x_axis : ℚ) - JOYSTICK_CENTER) /
      JOYSTICK_MAX| < DEADZONE := by
    show |((x : ℚ) - 512) / 512| < 1 / 10
    rw [abs_div, show |(512 : ℚ)| = 512 from by norm_num]
    exact h
  rw [update_some]
  dsimp only
  rw [if_pos hd]
  ring

/-- Claim C7, witness: the deadzone theorem at `x = 520` (normalized
`8/512 ≈ 0.0156 < 0.1`) with the button held. -/
theorem C7_witness :
    (ModelController.init.update_from_joystick
      (some ⟨520, 512, true⟩)).position.x = ModelController.init.position.x :=
  C7_thm ModelController.init 520 512 true (by norm_num)

/-- Claim C8, confirmed: three consecutive ticks with the button pressed,
from `position.y = 0`, stack three jumps of `0.2` to `y = 0.6` — there
is no grounded check, so jump height accumulates while held. -/
theorem C8_thm (s : ModelController) (d1 d2 d3 : InputSample)
    (h0 : s.position.y = 0) (h1 : d1.button_pressed = true)
    (h2 : d2.button_pressed = true) (h3 : d3.button_pressed = true) :
    (((s.update_from_joystick (some d1)).update_from_joystick
      (some d2)).update_from_joystick (some d3)).position.y = 3 / 5 := by
  rw [update_some, update_some, update_some]
  dsimp only
  rw [h1, h2, h3]
  norm_num [h0, JUMP_HEIGHT]

/-- Claim C8, witness: three held-button samples from the initial state
reach `y = 3/5 = 0.6`. -/
theorem C8_witness :
    (((ModelController.init.update_from_joystick
      (some ⟨512, 512, true⟩)).update_from_joystick
      (some ⟨512, 512, true⟩)).update_from_joystick
      (some ⟨512, 512, true⟩)).position.y = 3 / 5 :=
  C8_thm ModelController.init _ _ _ rfl rfl rfl rfl

/-- Claim C9, confirmed: the transition touches only `position.x`,
`position.y` and `rotation.y` (yaw); `position.z`, `rotation.x` (pitch),
`rotation.z` (roll) and the whole `velocity` vector are unchanged by
every call, with or without a sample. -/
theorem C9_thm (s : ModelController) (d : Option InputSample) :
    (s.update_from_joystick d).position.z = s.position.z ∧
      (s.update_from_joystick d).rotation.x = s.rotation.x ∧
      (s.update_from_joystick d).rotation.z = s.rotation.z ∧
      (s.update_from_joystick d).velocity = s.velocity := by
  cases d <;> exact ⟨rfl, rfl, rfl, rfl⟩

/-- Claim C10, confirmed: polling is non-blocking at the line-buffered
channel model — with no channel, or with an empty buffer, the call
returns no sample at once and leaves the channel as it was; with a
nonempty buffer it consumes exactly the first buffered line (one line
per call, no retry). -/
theorem C10_thm :
    read_joystick_data none = (none, none) ∧
      (∀ ser : SerialChannel, ser.buffer = [] →
        read_joystick_data (some ser) = (none, some ser)) ∧
      (∀ (ser : SerialChannel) (raw : Option (List Char))
        (rest : List (Option (List Char))), ser.buffer = raw :: rest →
        (read_joystick_data (some ser)).2 = some ⟨rest⟩) := by
  refine ⟨rfl, ?_, ?_⟩
  · intro ser h
    obtain ⟨buf⟩ := ser
    cases h
    rfl
  · intro ser raw rest h
    obtain ⟨buf⟩ := ser
    cases h
    cases raw <;> rfl

/-- Claim C10, witness: an empty buffer returns `(none, unchanged)`; a
buffer holding a decodable line and then an undecodable one consumes
exactly the first entry. -/
theorem C10_witness :
    read_joystick_data (some ⟨[]⟩) = (none, some ⟨[]⟩) ∧
      (read_joystick_data
        (some ⟨[some ("612,512,1".data), none]⟩)).2 = some ⟨[none]⟩ :=
  ⟨C10_thm.2.1 ⟨[]⟩ rfl, C10_thm.2.2 ⟨[some ("612,512,1".data), none]⟩ _ _ rfl⟩

end Ctrl
